import Mathlib

/-!
Shallow embedding of the atd-cctv-images camera fetch/publish pipeline
(src/cctv/camera.py and src/cctv/process_images.py).

Image payloads are byte lists (`List Nat`).  The HTTP fetch boundary is a
value of `HttpResult` (either a transport error, as raised by the client
library, or a response carrying status, content-type header and body), and
the object-store put boundary is a value of `PutResult` (either the put
call raised, or it returned a response whose Python truthiness we record).
Exceptions raised by the camera methods are modelled as explicit error
values returned next to the post-state.
-/

/-- Environment-derived credentials (CAMERA_USERNAME, CAMERA_PASSWORD,
WISENET_USERNAME, WISENET_PASSWORD in camera.py). -/
structure Env where
  camera_username : String
  camera_password : String
  wisenet_username : String
  wisenet_password : String
deriving Repr, DecidableEq

/-- Module constant EXCEPTION_LIMIT = 5 in camera.py, the default
`exception_limit` of a Camera. -/
def EXCEPTION_LIMIT : Nat := 5

/-- Runtime state of one camera, mirroring the fields set in
Camera.__init__ (camera.py lines 59-84). -/
structure Camera where
  id : Int
  model : String
  ip : String
  fallback_img : List Nat
  exception_limit : Nat
  auth : Option (String × String)
  image : Option (List Nat)
  is_fallback_uploaded : Bool
  url : String
  exception_count : Nat
deriving Repr, DecidableEq

/-- ASCII lowercasing of one character, as Python str.lower() acts on
the ASCII model names appearing in the source. -/
def lowerChar (c : Char) : Char :=
  if 65 ≤ c.toNat ∧ c.toNat ≤ 90 then Char.ofNat (c.toNat + 32) else c

/-- ASCII lowercasing of a string (Python str.lower() restricted to the
ASCII strings the source compares). -/
def pyLower (s : String) : String :=
  String.mk (s.data.map lowerChar)

/-- Camera._build_url (camera.py lines 86-95): advidia and wisenet models
have dedicated URL templates, every other model uses the default one. -/
def build_url (env : Env) (model ip : String) : String :=
  if pyLower model = "advidia" then
    "http://" ++ env.camera_username ++ ":" ++ env.camera_password ++ "@" ++ ip
      ++ "/ISAPI/Streaming/channels/101/picture"
  else if pyLower model = "wisenet" then
    "http://" ++ ip ++ "/stw-cgi/video.cgi?msubmenu=snapshot&action=view&Profile=1&Channel=0"
  else
    "http://" ++ ip ++ "/jpeg?id=2"

/-- Error raised by Camera.__init__ when an argument is falsey. -/
inductive InitError where
  | valueError
deriving Repr, DecidableEq

/-- Camera.__init__ (camera.py lines 31-84): `assert ip and id and model`
raises ValueError when any argument is Python-falsey (empty string for
`ip` / `model`, zero for the integer `id`); otherwise the runtime fields
are initialised (image None, fallback not uploaded, exception count 0)
and the url and auth scheme are derived from the model. -/
def Camera.init (env : Env) (ip : String) (id : Int) (model : String)
    (fallback_img : List Nat) (exception_limit : Nat) : Except InitError Camera :=
  if ip.isEmpty ∨ id = 0 ∨ model.isEmpty then
    Except.error InitError.valueError
  else
    Except.ok
      { id := id
        model := model
        ip := ip
        fallback_img := fallback_img
        exception_limit := exception_limit
        auth :=
          if pyLower model = "wisenet" then
            some (env.wisenet_username, env.wisenet_password)
          else
            none
        image := none
        is_fallback_uploaded := false
        url := build_url env model ip
        exception_count := 0 }

/-- Camera._raise_exception (camera.py lines 97-100).  The source reads
`self.exception_count + 1` and then discards the sum (there is no
assignment), so the state it returns is unchanged; only the exception is
raised.  Its own docstring says the count is increased, which the body
does not do. -/
def Camera.raiseException (c : Camera) : Camera := c

/-- Camera.is_disabled (camera.py lines 105-106):
`exception_count >= exception_limit`. -/
def Camera.is_disabled (c : Camera) : Bool :=
  c.exception_limit ≤ c.exception_count

/-- Outcome of the HTTP GET issued by Camera._download: either the client
library raised a transport/connect/timeout error (httpx.RequestError), or
a response arrived with a status code, an optional content-type header
value (`none` models both a missing header and a malformed headers
object, the KeyError/TypeError catch) and a body. -/
inductive HttpResult where
  | requestError
  | response (status : Nat) (contentType : Option String) (body : List Nat)
deriving Repr, DecidableEq

/-- Classification of a fetch failure, following the except arms of
Camera._download. -/
inductive FailureKind where
  | network
  | server
  | client
  | contentType
deriving Repr, DecidableEq

/-- Python substring containment on character lists (`needle in hay`). -/
def charsContains (needle : List Char) : List Char → Bool
  | [] => needle.isEmpty
  | c :: rest => needle.isPrefixOf (c :: rest) || charsContains needle rest

/-- Python substring containment on strings: `needle in hay`. -/
def strContains (hay needle : String) : Bool :=
  charsContains needle.data hay.data

/-- Camera._download (camera.py lines 138-177).  `raise_for_status`
raises httpx.HTTPStatusError exactly for status >= 400; a status below
500 then forces `exception_count = exception_limit` before the exception
is re-raised (camera.py lines 159-161).  For a status below 400 the
content-type header value must contain the substring "image" (a
case-sensitive check on the value, camera.py line 167); a missing or
malformed header is also a failure.  On success the full response body is
returned unmodified. -/
def Camera.downloadInner (c : Camera) (r : HttpResult) :
    Camera × Except FailureKind (List Nat) :=
  match r with
  | HttpResult.requestError =>
      (c.raiseException, Except.error FailureKind.network)
  | HttpResult.response status contentType body =>
      if 400 ≤ status then
        if status < 500 then
          (({ c with exception_count := c.exception_limit } : Camera).raiseException,
            Except.error FailureKind.client)
        else
          (c.raiseException, Except.error FailureKind.server)
      else
        match contentType with
        | none => (c.raiseException, Except.error FailureKind.contentType)
        | some ct =>
            if strContains ct "image" then
              (c, Except.ok body)
            else
              (c.raiseException, Except.error FailureKind.contentType)

/-- Exception surfaced out of Camera.download: either the camera was
already disabled, or the inner fetch failed with a classified kind. -/
inductive DownloadError where
  | disabled
  | fetch (kind : FailureKind)
deriving Repr, DecidableEq

/-- Camera.download (camera.py lines 117-136): raise immediately when the
camera is disabled; otherwise clear `image`, run the fetch, and on
success store the body in `image` and reset `exception_count` to 0.  The
returned option is `none` on success (the method returned True) and
`some e` when the exception `e` propagated. -/
def Camera.download (c : Camera) (r : HttpResult) : Camera × Option DownloadError :=
  if c.is_disabled = true then
    (c.raiseException, some DownloadError.disabled)
  else
    match ({ c with image := none } : Camera).downloadInner r with
    | (c2, Except.ok body) =>
        ({ c2 with image := some body, exception_count := 0 }, none)
    | (c2, Except.error k) =>
        (c2, some (DownloadError.fetch k))

/-- Outcome of the aiobotocore put_object call inside Camera.upload:
either the call raised, or it returned a response object whose Python
truthiness is recorded. -/
inductive PutResult where
  | raised
  | returned (truthy : Bool)
deriving Repr, DecidableEq

/-- Python truthiness of the optional image buffer: `not self.image` is
true when the buffer is None or empty. -/
def bytesFalsey : Option (List Nat) → Bool
  | none => true
  | some b => b.isEmpty

/-- The Body argument of put_object: `self.image or self.fallback_img`
(camera.py line 201). -/
def Camera.imageOrFallback (c : Camera) : List Nat :=
  match c.image with
  | none => c.fallback_img
  | some b => if b.isEmpty then c.fallback_img else b

/-- Result of Camera.upload: the post-state, the body handed to
put_object (`none` when the write was skipped entirely), and whether the
method returned True (`ok = false` means an exception propagated). -/
structure UploadResult where
  camera : Camera
  putBody : Option (List Nat)
  ok : Bool
deriving Repr, DecidableEq

/-- Camera.upload (camera.py lines 179-209).  If `image` is falsey and
the fallback is already uploaded, the write is skipped and True is
returned.  Otherwise put_object is called with `image or fallback_img`;
if it raises, the handler re-raises without touching
`is_fallback_uploaded`; if it returns a response, line 206 sets
`is_fallback_uploaded` to (resp truthy AND image falsey) — also when the
response is falsey — and a falsey response then raises. -/
def Camera.upload (c : Camera) (put : PutResult) : UploadResult :=
  if bytesFalsey c.image && c.is_fallback_uploaded then
    { camera := c, putBody := none, ok := true }
  else
    match put with
    | PutResult.raised =>
        { camera := c.raiseException, putBody := some c.imageOrFallback, ok := false }
    | PutResult.returned truthy =>
        match truthy with
        | true =>
            { camera := { c with is_fallback_uploaded := bytesFalsey c.image }
              putBody := some c.imageOrFallback
              ok := true }
        | false =>
            { camera :=
                ({ c with is_fallback_uploaded := false } : Camera).raiseException
              putBody := some c.imageOrFallback
              ok := false }

/-- One loop body of `worker` (process_images.py lines 86-120): download
with every exception caught and logged, then upload likewise, then the
camera is sent to the end of the queue.  Returns the post-state camera
and the body the upload step handed to put_object (if any). -/
def workerStep (c : Camera) (r : HttpResult) (p : PutResult) :
    Camera × Option (List Nat) :=
  let d := c.download r
  let u := d.1.upload p
  (u.camera, u.putBody)

/-- The queue as seen by one worker cycle: the worker takes the camera at
the head, processes one download/upload cycle, and puts it back at the
tail (process_images.py lines 88 and 120) — unconditionally, disabled or
not. -/
def workerCycle (q : List Camera) (r : HttpResult) (p : PutResult) : List Camera :=
  match q with
  | [] => []
  | c :: rest => rest ++ [(workerStep c r p).1]

/-- A sequence of download attempts folded over one camera, keeping only
the post-states (every raised exception is caught by the worker). -/
def iterDownload (c : Camera) (rs : List HttpResult) : Camera :=
  rs.foldl (fun a r => (a.download r).1) c

/-- A Knack roster record as consumed by create_camera
(process_images.py lines 50-65): each field may be missing. -/
structure KnackRecord where
  ip : Option String
  camera_id : Option Int
  model : Option String
deriving Repr, DecidableEq

/-- Python truthiness of an optional string field. -/
def truthyStr : Option String → Bool
  | none => false
  | some s => !s.isEmpty

/-- Python truthiness of an optional integer field. -/
def truthyInt : Option Int → Bool
  | none => false
  | some i => i ≠ 0

/-- create_camera (process_images.py lines 50-65): returns None when any
of ip, camera_id, model is Python-falsey (missing, empty string, or the
integer 0), otherwise constructs the Camera with the default exception
limit.  A ValueError escaping the constructor would propagate, which the
Except layer records. -/
def create_camera (env : Env) (record : KnackRecord) (fallback_img : List Nat) :
    Except InitError (Option Camera) :=
  match record.ip, record.camera_id, record.model with
  | some ip, some id, some model =>
      if ip.isEmpty ∨ id = 0 ∨ model.isEmpty then
        Except.ok none
      else
        (Camera.init env ip id model fallback_img EXCEPTION_LIMIT).map some
  | _, _, _ => Except.ok none

/-- Modelled from the spec: the case-insensitive containment test the
spec prescribes for the content-type header value — the header value
contains the substring "image" ignoring case. -/
def specContainsImageCI (ct : String) : Bool :=
  strContains (pyLower ct) "image"

/-- Concrete environment for witnesses. -/
def env0 : Env := ⟨"u", "p", "wu", "wp"⟩

/-- A freshly constructed camera (default limit 5, no failures yet). -/
def cam0 : Camera :=
  { id := 1
    model := "axis"
    ip := "10.0.0.1"
    fallback_img := [7, 7]
    exception_limit := 5
    auth := none
    image := none
    is_fallback_uploaded := false
    url := build_url env0 "axis" "10.0.0.1"
    exception_count := 0 }

example : Camera.init env0 "10.0.0.1" 1 "axis" [7, 7] 5 = Except.ok cam0 := rfl

example : cam0.is_disabled = false := by decide

example : (cam0.download HttpResult.requestError).1.exception_count = 0 := by decide

example :
    (cam0.download (HttpResult.response 404 none [])).1.exception_count = 5 := by
  decide

example : strContains "image/jpeg; charset=x" "image" = true := by decide

example : strContains "IMAGE/JPEG" "image" = false := by decide

example : specContainsImageCI "IMAGE/JPEG" = true := by decide

/-! ## Helper lemmas about the embedded operations -/

theorem downloadInner_image (c : Camera) (r : HttpResult) :
    (c.downloadInner r).1.image = c.image := by
  unfold Camera.downloadInner Camera.raiseException
  cases r with
  | requestError => rfl
  | response s ct b =>
      dsimp only
      split
      · split <;> rfl
      · cases ct with
        | none => rfl
        | some s2 =>
            dsimp only
            split <;> rfl

theorem downloadInner_limit (c : Camera) (r : HttpResult) :
    (c.downloadInner r).1.exception_limit = c.exception_limit := by
  unfold Camera.downloadInner Camera.raiseException
  cases r with
  | requestError => rfl
  | response s ct b =>
      dsimp only
      split
      · split <;> rfl
      · cases ct with
        | none => rfl
        | some s2 =>
            dsimp only
            split <;> rfl

theorem downloadInner_ok (c : Camera) (r : HttpResult) (body : List Nat)
    (h : (c.downloadInner r).2 = Except.ok body) :
    (c.downloadInner r).1 = c
      ∧ ∃ s ct, r = HttpResult.response s ct body := by
  cases r with
  | requestError =>
      simp [Camera.downloadInner, Camera.raiseException] at h
  | response s ct b =>
      by_cases h4 : 400 ≤ s
      · by_cases h5 : s < 500
        · simp [Camera.downloadInner, Camera.raiseException, h4, h5] at h
        · simp [Camera.downloadInner, Camera.raiseException, h4, h5] at h
      · cases ct with
        | none => simp [Camera.downloadInner, Camera.raiseException, h4] at h
        | some s2 =>
            by_cases hct : strContains s2 "image" = true
            · have he : c.downloadInner (HttpResult.response s (some s2) b)
                  = (c, Except.ok b) := by
                simp [Camera.downloadInner, h4, hct]
              rw [he] at h
              simp only [Except.ok.injEq] at h
              subst h
              rw [he]
              exact ⟨rfl, s, some s2, rfl⟩
            · simp [Camera.downloadInner, Camera.raiseException, h4, hct] at h

theorem download_of_disabled (c : Camera) (r : HttpResult)
    (hd : c.is_disabled = true) :
    c.download r = (c, some DownloadError.disabled) := by
  unfold Camera.download Camera.raiseException
  rw [if_pos hd]

theorem upload_exception_count (c : Camera) (p : PutResult) :
    (c.upload p).camera.exception_count = c.exception_count := by
  unfold Camera.upload Camera.raiseException
  split
  · rfl
  · cases p with
    | raised => rfl
    | returned t => cases t <;> rfl

theorem upload_exception_limit (c : Camera) (p : PutResult) :
    (c.upload p).camera.exception_limit = c.exception_limit := by
  unfold Camera.upload Camera.raiseException
  split
  · rfl
  · cases p with
    | raised => rfl
    | returned t => cases t <;> rfl

theorem upload_is_disabled (c : Camera) (p : PutResult) :
    (c.upload p).camera.is_disabled = c.is_disabled := by
  unfold Camera.is_disabled
  rw [upload_exception_count, upload_exception_limit]

/-! ## Claim theorems -/

/-- C1 (code_bug evaluation): after three consecutive network failures a
fresh camera with limit 5 still has `exception_count = 0`, not
min(3, 5) = 3 as the claim states, because `self.exception_count + 1` in
Camera._raise_exception discards its result — contradicting that
method's own docstring, which says the count is increased.  The camera is
consequently never disabled by network failures. -/
theorem c1_failure_counter_bug :
    (iterDownload cam0 [HttpResult.requestError, HttpResult.requestError,
        HttpResult.requestError]).exception_count = 0
    ∧ (iterDownload cam0 [HttpResult.requestError, HttpResult.requestError,
        HttpResult.requestError]).is_disabled = false
    ∧ min 3 cam0.exception_limit = 3 :=
  ⟨rfl, rfl, rfl⟩

/-- C2: a single client failure — an HTTP status in [400, 500) on a fetch
performed while the camera is enabled — sets `exception_count` to
`exception_limit` regardless of its prior value, so `is_disabled` is true
after that one failure, and the error is classified as a client
failure. -/
theorem c2_client_failure_disables (c : Camera) (status : Nat)
    (ct : Option String) (body : List Nat) (hnd : c.is_disabled = false)
    (h4 : 400 ≤ status) (h5 : status < 500) :
    (c.download (HttpResult.response status ct body)).1.exception_count
        = c.exception_limit
    ∧ (c.download (HttpResult.response status ct body)).1.is_disabled = true
    ∧ (c.download (HttpResult.response status ct body)).2
        = some (DownloadError.fetch FailureKind.client) := by
  have h : c.download (HttpResult.response status ct body)
      = ({ c with image := none, exception_count := c.exception_limit },
          some (DownloadError.fetch FailureKind.client)) := by
    unfold Camera.download Camera.downloadInner Camera.raiseException
    rw [hnd]
    simp only [Bool.false_eq_true, if_false]
    rw [if_pos h4, if_pos h5]
  rw [h]
  refine ⟨rfl, ?_, rfl⟩
  simp [Camera.is_disabled]

/-- Witness for C2 at Scenario B of the spec: a fresh camera (limit 5)
receiving one HTTP 404. -/
theorem c2_client_failure_disables_witness :
    cam0.is_disabled = false ∧ 400 ≤ 404 ∧ 404 < 500
    ∧ ((cam0.download (HttpResult.response 404 none [])).1.exception_count
          = cam0.exception_limit
      ∧ (cam0.download (HttpResult.response 404 none [])).1.is_disabled = true
      ∧ (cam0.download (HttpResult.response 404 none [])).2
          = some (DownloadError.fetch FailureKind.client)) :=
  ⟨by decide, by decide, by decide,
    c2_client_failure_disables cam0 404 none [] (by decide) (by decide) (by decide)⟩

/-- A camera that has reached its exception limit (disabled state). -/
def camD : Camera := { cam0 with exception_count := 5 }

/-- C3 counterexample: a disabled camera put through one worker cycle
still has its publish step executed — an actual object-store write of
the fallback image — and is put back at the tail of the queue, so the
scheduler keeps scheduling it; the claim says no further fetch/publish
cycle is ever attempted and that scheduling stops permanently. -/
theorem c3_disabled_still_scheduled_cex :
    camD.is_disabled = true
    ∧ (workerStep camD HttpResult.requestError (PutResult.returned true)).2
        = some camD.fallback_img
    ∧ workerCycle [camD] HttpResult.requestError (PutResult.returned true)
        = [(workerStep camD HttpResult.requestError (PutResult.returned true)).1]
    ∧ (workerStep camD HttpResult.requestError (PutResult.returned true)).1.is_disabled
        = true :=
  ⟨by decide, by decide, rfl, by decide⟩

/-- C3 amended: once `is_disabled` is true the fetch itself is never
performed again — `download` raises immediately, leaving the camera
unchanged — and the disabled state persists across any worker cycle;
but the worker still attempts the publish step each cycle and
unconditionally re-enqueues the device at the tail of the queue. -/
theorem c3_disabled_never_fetches (c : Camera) (r : HttpResult) (p : PutResult)
    (hd : c.is_disabled = true) :
    c.download r = (c, some DownloadError.disabled)
    ∧ (workerStep c r p).1.is_disabled = true
    ∧ ∀ q : List Camera, workerCycle (c :: q) r p
        = q ++ [(workerStep c r p).1] := by
  have hdl := download_of_disabled c r hd
  refine ⟨hdl, ?_, fun q => rfl⟩
  unfold workerStep
  rw [hdl]
  rw [upload_is_disabled]
  exact hd

/-- Witness for C3 amended at a concrete disabled camera. -/
theorem c3_disabled_never_fetches_witness :
    camD.is_disabled = true
    ∧ (camD.download HttpResult.requestError = (camD, some DownloadError.disabled)
      ∧ (workerStep camD HttpResult.requestError PutResult.raised).1.is_disabled = true
      ∧ ∀ q : List Camera,
          workerCycle (camD :: q) HttpResult.requestError PutResult.raised
            = q ++ [(workerStep camD HttpResult.requestError PutResult.raised).1]) :=
  ⟨by decide,
    c3_disabled_never_fetches camD HttpResult.requestError PutResult.raised (by decide)⟩

/-- C4: when `image` is falsey and the fallback is already uploaded,
upload skips the write (no body is handed to put_object), reports
success, and leaves the camera unchanged; and after an upload that
successfully published the fallback, a second upload with no fetch in
between writes nothing and succeeds. -/
theorem c4_publish_idempotent_noop (c : Camera) (p q : PutResult)
    (hf : bytesFalsey c.image = true) :
    (c.is_fallback_uploaded = true →
      c.upload p = { camera := c, putBody := none, ok := true })
    ∧ (c.is_fallback_uploaded = false →
      ((c.upload (PutResult.returned true)).camera.upload q).putBody = none
      ∧ ((c.upload (PutResult.returned true)).camera.upload q).ok = true
      ∧ (c.upload (PutResult.returned true)).camera.is_fallback_uploaded = true) := by
  constructor
  · intro hup
    unfold Camera.upload
    rw [hf, hup]
    simp
  · intro hup
    have h1 : c.upload (PutResult.returned true)
        = { camera := { c with is_fallback_uploaded := bytesFalsey c.image }
            putBody := some c.imageOrFallback
            ok := true } := by
      unfold Camera.upload
      rw [hf, hup]
      simp
    rw [h1]
    have h2 : ({ c with is_fallback_uploaded := bytesFalsey c.image } : Camera).upload q
        = { camera := { c with is_fallback_uploaded := bytesFalsey c.image }
            putBody := none
            ok := true } := by
      unfold Camera.upload
      simp [hf]
    rw [h2]
    exact ⟨rfl, rfl, hf⟩

/-- A camera with no image whose fallback has already been uploaded. -/
def camE : Camera := { cam0 with is_fallback_uploaded := true }

/-- Witness for C4 at a concrete camera with an empty image buffer. -/
theorem c4_publish_idempotent_noop_witness :
    bytesFalsey camE.image = true
    ∧ ((camE.is_fallback_uploaded = true →
        camE.upload PutResult.raised = { camera := camE, putBody := none, ok := true })
      ∧ (camE.is_fallback_uploaded = false →
        ((camE.upload (PutResult.returned true)).camera.upload PutResult.raised).putBody
            = none
        ∧ ((camE.upload (PutResult.returned true)).camera.upload PutResult.raised).ok
            = true
        ∧ (camE.upload (PutResult.returned true)).camera.is_fallback_uploaded = true)) :=
  ⟨by decide, c4_publish_idempotent_noop camE PutResult.raised PutResult.raised (by decide)⟩

/-- C5: after an upload whose put_object call is reached and returns a
truthy (successful) response, `is_fallback_uploaded` equals the
falsiness of `image` — true exactly when the payload handed to the
store was the fallback image, false when it was a real image taken from
`image`. -/
theorem c5_fallback_flag_tracks_payload (c : Camera)
    (hns : (bytesFalsey c.image && c.is_fallback_uploaded) = false) :
    (c.upload (PutResult.returned true)).ok = true
    ∧ (c.upload (PutResult.returned true)).camera.is_fallback_uploaded
        = bytesFalsey c.image
    ∧ (c.upload (PutResult.returned true)).putBody = some c.imageOrFallback
    ∧ (bytesFalsey c.image = true → c.imageOrFallback = c.fallback_img)
    ∧ (bytesFalsey c.image = false → c.image = some c.imageOrFallback) := by
  have h1 : c.upload (PutResult.returned true)
      = { camera := { c with is_fallback_uploaded := bytesFalsey c.image }
          putBody := some c.imageOrFallback
          ok := true } := by
    unfold Camera.upload
    rw [hns]
    simp
  rw [h1]
  refine ⟨rfl, rfl, rfl, ?_, ?_⟩
  · intro hb
    unfold Camera.imageOrFallback
    cases himg : c.image with
    | none => rfl
    | some b =>
        rw [himg] at hb
        simp only [bytesFalsey] at hb
        simp [hb]
  · intro hb
    unfold Camera.imageOrFallback
    cases himg : c.image with
    | none =>
        rw [himg] at hb
        simp [bytesFalsey] at hb
    | some b =>
        rw [himg] at hb
        simp only [bytesFalsey] at hb
        simp [hb]

/-- A camera holding a freshly fetched two-byte image, fallback not
published. -/
def camF : Camera := { cam0 with image := some [1, 2] }

/-- Witness for C5 at a camera holding a real image. -/
theorem c5_fallback_flag_tracks_payload_witness :
    (bytesFalsey camF.image && camF.is_fallback_uploaded) = false
    ∧ ((camF.upload (PutResult.returned true)).ok = true
      ∧ (camF.upload (PutResult.returned true)).camera.is_fallback_uploaded
          = bytesFalsey camF.image
      ∧ (camF.upload (PutResult.returned true)).putBody = some camF.imageOrFallback
      ∧ (bytesFalsey camF.image = true → camF.imageOrFallback = camF.fallback_img)
      ∧ (bytesFalsey camF.image = false → camF.image = some camF.imageOrFallback)) :=
  ⟨by decide, c5_fallback_flag_tracks_payload camF (by decide)⟩

/-- C6 amended: when put_object raises (store unreachable, auth error),
the failure propagates and `is_fallback_uploaded` is left unchanged; but
when put_object returns a falsey (non-success) response, line 206 of
camera.py sets `is_fallback_uploaded` to false — regardless of its prior
value — before the failure is surfaced. -/
theorem c6_publish_failure_flag (c : Camera)
    (hns : (bytesFalsey c.image && c.is_fallback_uploaded) = false) :
    ((c.upload PutResult.raised).camera.is_fallback_uploaded
        = c.is_fallback_uploaded
      ∧ (c.upload PutResult.raised).ok = false)
    ∧ ((c.upload (PutResult.returned false)).camera.is_fallback_uploaded = false
      ∧ (c.upload (PutResult.returned false)).ok = false) := by
  constructor
  · have h1 : c.upload PutResult.raised
        = { camera := c, putBody := some c.imageOrFallback, ok := false } := by
      unfold Camera.upload Camera.raiseException
      rw [hns]
      simp
    rw [h1]
    exact ⟨rfl, rfl⟩
  · have h2 : c.upload (PutResult.returned false)
        = { camera := { c with is_fallback_uploaded := false }
            putBody := some c.imageOrFallback
            ok := false } := by
      unfold Camera.upload Camera.raiseException
      rw [hns]
      simp
    rw [h2]
    exact ⟨rfl, rfl⟩

/-- A camera holding a real image while the fallback flag is still set
from an earlier cycle. -/
def camC6 : Camera := { cam0 with image := some [1], is_fallback_uploaded := true }

/-- C6 counterexample: a publish attempt that fails because put_object
returned a falsey (non-success) response does NOT leave
`is_fallback_uploaded` unchanged — it flips it from true to false even
though no write was confirmed. -/
theorem c6_falsey_resp_clears_flag_cex :
    camC6.is_fallback_uploaded = true
    ∧ (camC6.upload (PutResult.returned false)).ok = false
    ∧ (camC6.upload (PutResult.returned false)).camera.is_fallback_uploaded
        = false :=
  ⟨rfl, rfl, rfl⟩

/-- Witness for C6 amended at the same concrete camera. -/
theorem c6_publish_failure_flag_witness :
    (bytesFalsey camC6.image && camC6.is_fallback_uploaded) = false
    ∧ (((camC6.upload PutResult.raised).camera.is_fallback_uploaded
          = camC6.is_fallback_uploaded
        ∧ (camC6.upload PutResult.raised).ok = false)
      ∧ ((camC6.upload (PutResult.returned false)).camera.is_fallback_uploaded
          = false
        ∧ (camC6.upload (PutResult.returned false)).ok = false)) :=
  ⟨by decide, c6_publish_failure_flag camC6 (by decide)⟩

/-- C7: `image` is cleared before each fetch attempt, so (given the
invariant that a disabled camera holds no image, which download itself
preserves) after any download call that raises, `image` is empty; and a
successful download stores exactly the freshly fetched response body,
never a previous image.  The invariant hypothesis holds for every
reachable camera: construction starts with `image = none` and the first
conjunct shows each download call re-establishes it (upload never
touches `image` or the counters). -/
theorem c7_image_cleared_on_failure (c : Camera) (r : HttpResult)
    (hinv : c.is_disabled = true → c.image = none) :
    ((c.download r).1.is_disabled = true → (c.download r).1.image = none)
    ∧ ((c.download r).2.isSome = true → (c.download r).1.image = none)
    ∧ (∀ status ct body, r = HttpResult.response status ct body →
        (c.download r).2 = none → (c.download r).1.image = some body) := by
  by_cases hd : c.is_disabled = true
  · have hdl := download_of_disabled c r hd
    rw [hdl]
    have himg := hinv hd
    refine ⟨fun _ => himg, fun _ => himg, ?_⟩
    intro s ct b _ hnone
    exact absurd hnone (by simp)
  · have hd2 : c.is_disabled = false := by
      simpa using hd
    have hpos : 0 < c.exception_limit := by
      unfold Camera.is_disabled at hd2
      simp only [decide_eq_false_iff_not, not_le] at hd2
      omega
    rcases hmr : ({ c with image := none } : Camera).downloadInner r with ⟨c2, res⟩
    have himg2 : c2.image = none := by
      have h := downloadInner_image ({ c with image := none } : Camera) r
      rw [hmr] at h
      exact h
    have hlim2 : c2.exception_limit = c.exception_limit := by
      have h := downloadInner_limit ({ c with image := none } : Camera) r
      rw [hmr] at h
      exact h
    cases res with
    | error k =>
        have hdl : c.download r = (c2, some (DownloadError.fetch k)) := by
          unfold Camera.download
          rw [hd2]
          simp only [Bool.false_eq_true, if_false]
          rw [hmr]
        rw [hdl]
        refine ⟨fun _ => himg2, fun _ => himg2, ?_⟩
        intro s ct b _ hnone
        exact absurd hnone (by simp)
    | ok body =>
        have hdl : c.download r
            = ({ c2 with image := some body, exception_count := 0 }, none) := by
          unfold Camera.download
          rw [hd2]
          simp only [Bool.false_eq_true, if_false]
          rw [hmr]
        have hok : (({ c with image := none } : Camera).downloadInner r).2
            = Except.ok body := by
          rw [hmr]
        obtain ⟨-, s, ct, hr⟩ :=
          downloadInner_ok ({ c with image := none } : Camera) r body hok
        rw [hdl]
        refine ⟨?_, ?_, ?_⟩
        · intro hdis
          exfalso
          unfold Camera.is_disabled at hdis
          simp only [decide_eq_true_eq] at hdis
          simp only [hlim2] at hdis
          omega
        · intro habs
          exact absurd habs (by simp)
        · intro s2 ct2 b2 hr2 _
          rw [hr] at hr2
          cases hr2
          rfl

/-- Witness for C7 at a fresh camera suffering a network failure. -/
theorem c7_image_cleared_on_failure_witness :
    (cam0.is_disabled = true → cam0.image = none)
    ∧ (((cam0.download HttpResult.requestError).1.is_disabled = true →
        (cam0.download HttpResult.requestError).1.image = none)
      ∧ ((cam0.download HttpResult.requestError).2.isSome = true →
        (cam0.download HttpResult.requestError).1.image = none)
      ∧ (∀ status ct body,
          HttpResult.requestError = HttpResult.response status ct body →
          (cam0.download HttpResult.requestError).2 = none →
          (cam0.download HttpResult.requestError).1.image = some body)) :=
  ⟨by decide, c7_image_cleared_on_failure cam0 HttpResult.requestError (by decide)⟩

/-- C8 counterexample: the spec-side case-insensitive test accepts the
header value "IMAGE/JPEG", so the claim predicts the fetch succeeds and
returns the body; but the source compares the header value
case-sensitively (`"image" in response.headers["content-type"]`), so the
same response is classified as a content-type failure.  The lowercase
value "image/jpeg" succeeds as expected. -/
theorem c8_case_sensitivity_cex :
    specContainsImageCI "IMAGE/JPEG" = true
    ∧ (cam0.downloadInner (HttpResult.response 200 (some "IMAGE/JPEG") [1])).2
        = Except.error FailureKind.contentType
    ∧ (cam0.downloadInner (HttpResult.response 200 (some "image/jpeg") [1])).2
        = Except.ok [1] :=
  ⟨by decide, rfl, rfl⟩

/-- C8 amended: for a fetch whose HTTP status is below 400, the response
succeeds and returns the full body unmodified exactly when the
content-type header value contains the substring "image" under a
case-sensitive comparison; otherwise — including an absent or malformed
header — the fetch fails as a content-type failure, with the camera
state unchanged either way. -/
theorem c8_content_type_classification (c : Camera) (status : Nat)
    (ct : Option String) (body : List Nat) (hs : status < 400) :
    (∀ s, ct = some s → strContains s "image" = true →
      c.downloadInner (HttpResult.response status ct body)
        = (c, Except.ok body))
    ∧ (∀ s, ct = some s → strContains s "image" = false →
      c.downloadInner (HttpResult.response status ct body)
        = (c, Except.error FailureKind.contentType))
    ∧ (ct = none →
      c.downloadInner (HttpResult.response status ct body)
        = (c, Except.error FailureKind.contentType)) := by
  have h4 : ¬ 400 ≤ status := by omega
  refine ⟨?_, ?_, ?_⟩
  · intro s hct hc
    subst hct
    simp [Camera.downloadInner, h4, hc]
  · intro s hct hc
    subst hct
    simp [Camera.downloadInner, Camera.raiseException, h4, hc]
  · intro hct
    subst hct
    simp [Camera.downloadInner, Camera.raiseException, h4]

/-- Witness for C8 amended at a 200 response with a jpeg content-type. -/
theorem c8_content_type_classification_witness :
    (200 : Nat) < 400
    ∧ ((∀ s, (some "image/jpeg" : Option String) = some s →
          strContains s "image" = true →
          cam0.downloadInner (HttpResult.response 200 (some "image/jpeg") [3, 4])
            = (cam0, Except.ok [3, 4]))
      ∧ (∀ s, (some "image/jpeg" : Option String) = some s →
          strContains s "image" = false →
          cam0.downloadInner (HttpResult.response 200 (some "image/jpeg") [3, 4])
            = (cam0, Except.error FailureKind.contentType))
      ∧ ((some "image/jpeg" : Option String) = none →
          cam0.downloadInner (HttpResult.response 200 (some "image/jpeg") [3, 4])
            = (cam0, Except.error FailureKind.contentType))) :=
  ⟨by decide, c8_content_type_classification cam0 200 (some "image/jpeg") [3, 4] (by decide)⟩

/-- A roster record whose ip and model are present and non-empty and
whose integer identifier is present but equal to 0. -/
def rec0 : KnackRecord := ⟨some "10.0.0.1", some 0, some "axis"⟩

/-- C9 counterexample: a record in which all three fields are present
and the two string fields are non-empty still yields no camera, because
the integer identifier 0 is Python-falsey: `assert ip and id and model`
raises ValueError for id 0 and create_camera skips the record, while the
claim predicts construction succeeds. -/
theorem c9_zero_id_cex :
    rec0.ip = some "10.0.0.1"
    ∧ rec0.camera_id = some 0
    ∧ rec0.model = some "axis"
    ∧ rec0.ip.map String.isEmpty = some false
    ∧ rec0.model.map String.isEmpty = some false
    ∧ create_camera env0 rec0 [7] = Except.ok none
    ∧ Camera.init env0 "10.0.0.1" 0 "axis" [7] EXCEPTION_LIMIT
        = Except.error InitError.valueError :=
  ⟨rfl, rfl, rfl, rfl, rfl, rfl, rfl⟩

/-- C9 amended: camera construction from a roster record succeeds
exactly when all three fields are Python-truthy — ip and model present
and non-empty, and the integer identifier present and non-zero; any
falsey field (missing, empty string, or id 0) yields no camera, and the
constructor itself raises ValueError exactly on a falsey argument. -/
theorem c9_construction_truthiness (env : Env) (record : KnackRecord)
    (fb : List Nat) :
    (∃ oc : Option Camera, create_camera env record fb = Except.ok oc
      ∧ oc.isSome = (truthyStr record.ip && truthyInt record.camera_id
          && truthyStr record.model))
    ∧ ∀ ip id model lim,
        (Camera.init env ip id model fb lim matches Except.error _)
          = (ip.isEmpty || decide (id = (0 : Int)) || model.isEmpty) := by
  constructor
  · rcases record with ⟨oip, oid, omodel⟩
    cases oip with
    | none => exact ⟨none, rfl, by simp [truthyStr]⟩
    | some ip =>
      cases oid with
      | none => exact ⟨none, rfl, by simp [truthyStr, truthyInt]⟩
      | some id =>
        cases omodel with
        | none => exact ⟨none, rfl, by simp [truthyStr, truthyInt]⟩
        | some model =>
          have hc : create_camera env ⟨some ip, some id, some model⟩ fb
              = if ip.isEmpty = true ∨ id = 0 ∨ model.isEmpty = true then
                  Except.ok none
                else
                  Except.map some (Camera.init env ip id model fb EXCEPTION_LIMIT) :=
            rfl
          by_cases hguard : ip.isEmpty = true ∨ id = 0 ∨ model.isEmpty = true
          · refine ⟨none, ?_, ?_⟩
            · rw [hc, if_pos hguard]
            · simp only [Option.isSome_none, truthyStr, truthyInt]
              rcases hguard with h | h | h <;> simp [h]
          · push_neg at hguard
            obtain ⟨h1, h2, h3⟩ := hguard
            refine ⟨some
              { id := id
                model := model
                ip := ip
                fallback_img := fb
                exception_limit := EXCEPTION_LIMIT
                auth :=
                  if pyLower model = "wisenet" then
                    some (env.wisenet_username, env.wisenet_password)
                  else
                    none
                image := none
                is_fallback_uploaded := false
                url := build_url env model ip
                exception_count := 0 }, ?_, ?_⟩
            · rw [hc, if_neg (by tauto)]
              unfold Camera.init
              rw [if_neg (by tauto)]
              exact rfl
            · have h1b : ip.isEmpty = false := by simpa using h1
              have h3b : model.isEmpty = false := by simpa using h3
              simp [truthyStr, truthyInt, h1b, h2, h3b]
  · intro ip id model lim
    unfold Camera.init
    by_cases hguard : ip.isEmpty = true ∨ id = 0 ∨ model.isEmpty = true
    · rw [if_pos hguard]
      rcases hguard with h | h | h <;> simp [h]
    · push_neg at hguard
      obtain ⟨h1, h2, h3⟩ := hguard
      rw [if_neg (by tauto)]
      have h1b : ip.isEmpty = false := by simpa using h1
      have h3b : model.isEmpty = false := by simpa using h3
      simp [h1b, h2, h3b]

/-- C10: a successful fetch with a zero-length body stores the empty
buffer in `image`, and upload then treats the camera as having no image:
if the fallback is already published the write is skipped entirely and
success is reported, otherwise the body handed to put_object is the
fallback image — the empty fetched body itself is never the payload. -/
theorem c10_empty_body_fallback (c : Camera) (p : PutResult)
    (h : c.image = some []) :
    (c.is_fallback_uploaded = true →
      (c.upload p).putBody = none ∧ (c.upload p).ok = true)
    ∧ (c.is_fallback_uploaded = false →
      (c.upload p).putBody = some c.fallback_img)
    ∧ (∀ (c2 : Camera) (status : Nat) (ct : Option String),
      (c2.download (HttpResult.response status ct [])).2 = none →
      (c2.download (HttpResult.response status ct [])).1.image = some []) := by
  have hf : bytesFalsey c.image = true := by rw [h]; rfl
  have hiof : c.imageOrFallback = c.fallback_img := by
    unfold Camera.imageOrFallback
    rw [h]
    rfl
  refine ⟨?_, ?_, ?_⟩
  · intro hup
    unfold Camera.upload
    rw [hf, hup]
    simp
  · intro hup
    have hup2 : c.upload p
        = { camera :=
              match p with
              | PutResult.raised => c
              | PutResult.returned true =>
                  { c with is_fallback_uploaded := bytesFalsey c.image }
              | PutResult.returned false =>
                  { c with is_fallback_uploaded := false }
            putBody := some c.imageOrFallback
            ok := (p matches PutResult.returned true) } := by
      unfold Camera.upload Camera.raiseException
      rw [hf, hup]
      cases p with
      | raised => rfl
      | returned t => cases t <;> rfl
    rw [hup2, hiof]
  · intro c2 status ct hs
    by_cases hd : c2.is_disabled = true
    · rw [download_of_disabled c2 (HttpResult.response status ct []) hd] at hs
      exact absurd hs (by simp)
    · have hd2 : c2.is_disabled = false := by simpa using hd
      rcases hmr : ({ c2 with image := none } : Camera).downloadInner
          (HttpResult.response status ct []) with ⟨c3, res⟩
      cases res with
      | error k =>
          have hdl : c2.download (HttpResult.response status ct [])
              = (c3, some (DownloadError.fetch k)) := by
            unfold Camera.download
            rw [hd2]
            simp only [Bool.false_eq_true, if_false]
            rw [hmr]
          rw [hdl] at hs
          exact absurd hs (by simp)
      | ok body =>
          have hok : (({ c2 with image := none } : Camera).downloadInner
              (HttpResult.response status ct [])).2 = Except.ok body := by
            rw [hmr]
          obtain ⟨-, s, ct2, hr⟩ :=
            downloadInner_ok ({ c2 with image := none } : Camera)
              (HttpResult.response status ct []) body hok
          have hb : body = [] := by
            cases hr
            rfl
          have hdl : c2.download (HttpResult.response status ct [])
              = ({ c3 with image := some body, exception_count := 0 }, none) := by
            unfold Camera.download
            rw [hd2]
            simp only [Bool.false_eq_true, if_false]
            rw [hmr]
          rw [hdl, hb]

/-- Witness for C10 at a camera that fetched a zero-length body while
its fallback was not yet published. -/
theorem c10_empty_body_fallback_witness :
    ({ cam0 with image := some [] } : Camera).image = some []
    ∧ ((({ cam0 with image := some [] } : Camera).is_fallback_uploaded = true →
        (({ cam0 with image := some [] } : Camera).upload PutResult.raised).putBody
            = none
        ∧ (({ cam0 with image := some [] } : Camera).upload PutResult.raised).ok
            = true)
      ∧ (({ cam0 with image := some [] } : Camera).is_fallback_uploaded = false →
        (({ cam0 with image := some [] } : Camera).upload PutResult.raised).putBody
            = some ({ cam0 with image := some [] } : Camera).fallback_img)
      ∧ (∀ (c2 : Camera) (status : Nat) (ct : Option String),
          (c2.download (HttpResult.response status ct [])).2 = none →
          (c2.download (HttpResult.response status ct [])).1.image = some [])) :=
  ⟨by decide,
    c10_empty_body_fallback ({ cam0 with image := some [] } : Camera)
      PutResult.raised (by decide)⟩
